import Mathlib

/-!
Verification of the imagepod job-dispatch core.

The development shallowly embeds the executor-facing job distribution code
(services/executor_service.py, api/executors.py, api/helpers.py,
api/runpod.py, services/job_service.py) over an explicit store of job and
endpoint rows.  SQLAlchemy queries become list filters over the row lists,
row mutation becomes replacement of the first matching row, and the HTTP
handlers become total functions returning an explicit result value plus the
resulting store.  Parts of the repository that the executor-facing code
consumes but that are not present in the source tree (the newer Job and
Endpoint columns, the dispatch-gateway job creation route and the endpoint
reassignment) are modelled from the specification and marked as such in
their doc comments.
-/

/-- Job row as used by the executor-facing services.  The columns mirror the
fields read and written by executor_service.py, api/helpers.py and
api/runpod.py (id, endpoint_id, executor_id, status, input_data,
output_data, delay_time, execution_time); JSON payloads are kept opaque as
strings.  The models/job.py file in the source tree predates these columns,
so the column set follows the service-layer usage and spec section 3. -/
structure Job where
  id : Nat
  endpoint_id : Nat
  executor_id : Nat
  status : String
  input_data : Option String
  output_data : Option String
  delay_time : Int
  execution_time : Int
deriving Repr, DecidableEq

/-- Endpoint row as used by the executor-facing services (id, user_id,
name, status, executor_id, template_id, env, version).  The
models/endpoint.py file in the source tree predates the executor_id column,
so the column set follows the service-layer usage and spec section 3. -/
structure Endpoint where
  id : Nat
  user_id : Nat
  name : String
  status : String
  executor_id : Nat
  template_id : Nat
  env : Option String
  version : Nat
deriving Repr, DecidableEq

/-- The persistent store: the jobs and endpoints tables, in row order. -/
structure DB where
  jobs : List Job
  endpoints : List Endpoint
deriving Repr, DecidableEq

/-- Replace the first row matching the filter, leaving the rest unchanged.
This models mutating the single ORM row returned by query(...).first(). -/
def replaceFirst (p : Job → Bool) (f : Job → Job) : List Job → List Job
  | [] => []
  | j :: js => if p j then f j :: js else j :: replaceFirst p f js

/-- Embeds executor_service.get_jobs_in_queue: all jobs of the executor
whose status is IN_QUEUE. -/
def get_jobs_in_queue (db : DB) (executor_id : Nat) : List Job :=
  db.jobs.filter (fun j => j.executor_id == executor_id && j.status == "IN_QUEUE")

/-- Embeds executor_service.get_endpoints_for_executor_by_status: all
endpoints of the executor with the given status. -/
def get_endpoints_for_executor_by_status (db : DB) (executor_id : Nat) (status : String) :
    List Endpoint :=
  db.endpoints.filter (fun e => e.executor_id == executor_id && e.status == status)

/-- Job payload of the updates response, as constructed in
api/helpers.py build_updates_response. -/
structure JobResponse where
  id : Nat
  delay_time : Int
  execution_time : Int
  output : Option String
  input : Option String
  status : String
  endpoint_id : Nat
  executor_id : Nat
deriving Repr, DecidableEq

/-- Endpoint payload of the updates response, as constructed in
api/helpers.py build_updates_response (the joined template record is
display data and is kept out of the embedding). -/
structure EndpointUpdateItem where
  id : Nat
  name : String
  status : String
  template_id : Nat
  executor_id : Nat
  env : Option String
  version : Nat
deriving Repr, DecidableEq

/-- Response body of GET /executors/updates (schemas/executor.py). -/
structure ExecutorUpdatesResponse where
  jobs : List JobResponse
  endpoints : List EndpointUpdateItem
deriving Repr, DecidableEq

/-- Field-by-field JobResponse construction from build_updates_response. -/
def jobToResponse (j : Job) : JobResponse :=
  { id := j.id
    delay_time := j.delay_time
    execution_time := j.execution_time
    output := j.output_data
    input := j.input_data
    status := j.status
    endpoint_id := j.endpoint_id
    executor_id := j.executor_id }

/-- Field-by-field EndpointUpdateItem construction from
build_updates_response. -/
def endpointToItem (e : Endpoint) : EndpointUpdateItem :=
  { id := e.id
    name := e.name
    status := e.status
    template_id := e.template_id
    executor_id := e.executor_id
    env := e.env
    version := e.version }

/-- Embeds api/helpers.py build_updates_response: jobs IN_QUEUE plus
endpoints with status Deploying, shaped into the response schema. -/
def build_updates_response (db : DB) (executor_id : Nat) : ExecutorUpdatesResponse :=
  { jobs := (get_jobs_in_queue db executor_id).map jobToResponse
    endpoints :=
      (get_endpoints_for_executor_by_status db executor_id "Deploying").map endpointToItem }

/-- Request body of PATCH /executors/job/(job_id)
(schemas/executor.py ExecutorJobUpdateRequest): all fields optional, the
status field is an unconstrained optional string. -/
structure ExecutorJobUpdateRequest where
  delay_time : Option Int := none
  execution_time : Option Int := none
  output_data : Option String := none
  status : Option String := none
deriving Repr, DecidableEq

/-- The per-field presence-checked mutation block of
executor_service.update_job_for_executor: each provided field overwrites
the stored one, with no restriction on the status value and no check of
the current status. -/
def applyExecutorJobUpdate (j : Job) (body : ExecutorJobUpdateRequest) : Job :=
  let j1 := match body.status with
    | some s => { j with status := s }
    | none => j
  let j2 := match body.delay_time with
    | some d => { j1 with delay_time := d }
    | none => j1
  let j3 := match body.execution_time with
    | some e => { j2 with execution_time := e }
    | none => j2
  match body.output_data with
  | some o => { j3 with output_data := some o }
  | none => j3

/-- Embeds executor_service.update_job_for_executor: the row is looked up
by job id and owning executor id together; a missing row (absent id or
ownership mismatch alike) yields none and leaves the store untouched,
otherwise the provided fields are written to that row. -/
def update_job_for_executor (db : DB) (executor_id job_id : Nat)
    (body : ExecutorJobUpdateRequest) : Option Job × DB :=
  match db.jobs.find? (fun j => j.id == job_id && j.executor_id == executor_id) with
  | none => (none, db)
  | some j =>
      (some (applyExecutorJobUpdate j body),
       { db with
          jobs := replaceFirst (fun k => k.id == job_id && k.executor_id == executor_id)
            (fun k => applyExecutorJobUpdate k body) db.jobs })

/-- Outcome of an HTTP handler: a value or an HTTPException with a status
code and detail string. -/
inductive ApiResult (α : Type) where
  | ok (value : α)
  | httpError (code : Nat) (detail : String)
deriving Repr, DecidableEq

/-- Success body of PATCH /executors/job/(job_id) in api/executors.py. -/
structure UpdateJobOk where
  detail : String
  id : Nat
deriving Repr, DecidableEq

/-- Embeds the update_job route of api/executors.py: a none result from the
service becomes a 404 with detail Job not found, otherwise detail ok plus
the job id. -/
def api_update_job (db : DB) (executor_id job_id : Nat) (body : ExecutorJobUpdateRequest) :
    ApiResult UpdateJobOk × DB :=
  match update_job_for_executor db executor_id job_id body with
  | (none, db2) => (ApiResult.httpError 404 "Job not found", db2)
  | (some j, db2) => (ApiResult.ok { detail := "ok", id := j.id }, db2)

/-- Embeds the timeout clamp of the get_updates route in api/executors.py:
wait_seconds = min(max(0.0, timeout), 60.0), over exact rationals. -/
def clampTimeout (timeout : Rat) : Rat :=
  min (max 0 timeout) 60

/-- Embeds the get_updates route of api/executors.py.  The rabbitmq
connection attribute read with a none default is modelled by the hasConn
flag; the result records the duration handed to the wait primitive (none
when no wait was performed), the response built from the current store, and
the store after the call. -/
def get_updates (hasConn : Bool) (timeout : Rat) (db : DB) (executor_id : Nat) :
    Option Rat × ExecutorUpdatesResponse × DB :=
  let wait_seconds := clampTimeout timeout
  let waited : Option Rat :=
    if hasConn = true ∧ 0 < wait_seconds then some wait_seconds else none
  (waited, build_updates_response db executor_id, db)

/-- Ordering of job rows by primary key, embedding order_by(Job.id.asc())
in api/runpod.py. -/
def byJobId (a b : Job) : Prop :=
  a.id ≤ b.id

instance : DecidableRel byJobId :=
  fun a b => Nat.decLe a.id b.id

instance : IsTotal Job byJobId :=
  ⟨fun a b => Nat.le_total a.id b.id⟩

instance : IsTrans Job byJobId :=
  ⟨fun _ _ _ => Nat.le_trans⟩

/-- Row filter of the job-take queries in api/runpod.py: jobs of the given
endpoint and executor whose status is IN_QUEUE. -/
def isQueuedFor (endpoint_id executor_id : Nat) (j : Job) : Bool :=
  j.endpoint_id == endpoint_id && j.executor_id == executor_id && j.status == "IN_QUEUE"

/-- The job-take query of api/runpod.py: queued jobs of the endpoint and
executor, ordered by ascending id. -/
def queuedJobsForPod (db : DB) (endpoint_id executor_id : Nat) : List Job :=
  List.insertionSort byJobId (db.jobs.filter (isQueuedFor endpoint_id executor_id))

/-- Sets status RUNNING on the rows whose id is in the list, embedding the
in-place status assignments of the job-take handlers. -/
def markRunningById (job_ids : List Nat) (jobs : List Job) : List Job :=
  jobs.map (fun k => if job_ids.contains k.id then { k with status := "RUNNING" } else k)

/-- Embeds the pod resolution helper of api/runpod.py: the endpoint whose
id is the pod id and that belongs to the authenticated executor. -/
def get_endpoint_for_pod (db : DB) (pod_id executor_id : Nat) : Option Endpoint :=
  db.endpoints.find? (fun e => e.id == pod_id && e.executor_id == executor_id)

/-- Minimal job JSON returned to the RunPod SDK: the id as a string and
the input payload with an empty-object default. -/
structure RunpodJobPayload where
  id : String
  input : String
deriving Repr, DecidableEq

/-- Embeds the serialize helper of api/runpod.py. -/
def serialize_job_for_runpod (j : Job) : RunpodJobPayload :=
  { id := toString j.id, input := j.input_data.getD "{}" }

/-- Outcome of the job-take routes: 204 without content, a single job
payload, a batch of payloads, or an HTTPException. -/
inductive TakeResponse where
  | noContent
  | takenOne (payload : RunpodJobPayload)
  | takenMany (payloads : List RunpodJobPayload)
  | httpError (code : Nat) (detail : String)
deriving Repr, DecidableEq

/-- Embeds job_take_batch of api/runpod.py: resolve the pod to an owned
endpoint (404 otherwise), take the first max(1, batch_size) queued jobs in
ascending id order, mark them RUNNING, and return their payloads; an empty
selection is a 204 and changes nothing. -/
def job_take_batch (db : DB) (pod_id executor_id : Nat) (batch_size : Int) :
    TakeResponse × DB :=
  match get_endpoint_for_pod db pod_id executor_id with
  | none => (TakeResponse.httpError 404 "Endpoint not found for this pod or executor", db)
  | some endpoint =>
      let limit : Nat := (max 1 batch_size).toNat
      let jobs := (queuedJobsForPod db endpoint.id executor_id).take limit
      match jobs with
      | [] => (TakeResponse.noContent, db)
      | taken =>
          (TakeResponse.takenMany (taken.map serialize_job_for_runpod),
           { db with jobs := markRunningById (taken.map Job.id) db.jobs })

/-- Embeds job_take_single of api/runpod.py: a batch_size above one
delegates to the batch handler; otherwise resolve the pod to an owned
endpoint (404 otherwise), pick the queued job with the least id, mark it
RUNNING and return it, or return 204 changing nothing when no job is
queued. -/
def job_take_single (db : DB) (pod_id executor_id : Nat) (batch_size : Option Int) :
    TakeResponse × DB :=
  if (batch_size.getD 0) > 1 then
    job_take_batch db pod_id executor_id (batch_size.getD 0)
  else
    match get_endpoint_for_pod db pod_id executor_id with
    | none => (TakeResponse.httpError 404 "Endpoint not found for this pod or executor", db)
    | some endpoint =>
        match (queuedJobsForPod db endpoint.id executor_id).head? with
        | none => (TakeResponse.noContent, db)
        | some j =>
            (TakeResponse.takenOne (serialize_job_for_runpod j),
             { db with jobs := markRunningById [j.id] db.jobs })

/-- Modelled from the spec: the Dispatch Gateway route
POST /jobs/(endpointID)/run is not present under the source tree (only its
executor-side consumers are).  Per spec section 4.3 it resolves the
endpoint checking ownership (collapsing not-found and forbidden), and
creates a job with executor_id copied from the endpoint executor_id,
status IN_QUEUE, delay_time 0 and execution_time 0; the fresh row id is a
parameter of the model. -/
def submitJob (db : DB) (endpoint_id client_user_id : Nat) (input : String) (new_id : Nat) :
    Option Job × DB :=
  match db.endpoints.find? (fun e => e.id == endpoint_id && e.user_id == client_user_id) with
  | none => (none, db)
  | some e =>
      let j : Job :=
        { id := new_id
          endpoint_id := e.id
          executor_id := e.executor_id
          status := "IN_QUEUE"
          input_data := some input
          output_data := none
          delay_time := 0
          execution_time := 0 }
      (some j, { db with jobs := db.jobs ++ [j] })

/-- Modelled from the spec: reassigning an endpoint to another executor is
not present under the source tree.  Per spec section 3 it rewrites the
endpoint executor_id and touches no job row. -/
def reassignEndpointExecutor (db : DB) (endpoint_id new_executor_id : Nat) : DB :=
  { db with
      endpoints := db.endpoints.map (fun e =>
        if e.id == endpoint_id then { e with executor_id := new_executor_id } else e) }

/-- Legacy job row of models/job.py as touched by JobService.delete_job:
id, user_id, status (lowercase vocabulary), timing fields.  Times are
modelled as integer ticks. -/
structure LegacyJob where
  id : Nat
  user_id : Nat
  status : String
  started_at : Option Int
  completed_at : Option Int
  duration_seconds : Option Int
deriving Repr, DecidableEq

/-- Embeds JobService.get_job: look the job up by id, restricting to the
owner only when a truthy user id is supplied (in Python both None and 0
skip the owner filter). -/
def legacy_get_job (jobs : List LegacyJob) (job_id : Nat) (user_id : Option Nat) :
    Option LegacyJob :=
  jobs.find? (fun j =>
    j.id == job_id &&
      (match user_id with
        | some u => if u == 0 then true else j.user_id == u
        | none => true))

/-- The conditional cancel block of JobService.delete_job: a pending or
running job is marked cancelled with a completion time and, when started,
a duration; any other status is left untouched. -/
def legacyCancelFields (now : Int) (j : LegacyJob) : LegacyJob :=
  if j.status == "pending" || j.status == "running" then
    let j2 := { j with status := "cancelled", completed_at := some now }
    match j.started_at with
    | some st => { j2 with duration_seconds := some (now - st) }
    | none => j2
  else j

/-- Replace the first legacy row matching the filter. -/
def replaceFirstLegacy (p : LegacyJob → Bool) (f : LegacyJob → LegacyJob) :
    List LegacyJob → List LegacyJob
  | [] => []
  | j :: js => if p j then f j :: js else j :: replaceFirstLegacy p f js

/-- Embeds JobService.delete_job, the handler behind DELETE /jobs/(job_id):
a missing job yields false and no change; an existing job is first run
through the conditional cancel block and then its row is deleted, and the
call returns true. -/
def delete_job (jobs : List LegacyJob) (now : Int) (job_id : Nat) (user_id : Option Nat) :
    Bool × List LegacyJob :=
  match legacy_get_job jobs job_id user_id with
  | none => (false, jobs)
  | some j =>
      let mutated := replaceFirstLegacy (fun k => k.id == j.id) (legacyCancelFields now) jobs
      (true, mutated.filter (fun k => !(k.id == j.id)))

/-- Concrete store used to instantiate the snapshot theorems. -/
def jobW2 : Job :=
  { id := 11, endpoint_id := 4, executor_id := 7, status := "IN_QUEUE"
    input_data := some "p", output_data := none, delay_time := 0, execution_time := 0 }

/-- Concrete non-matching job (other executor) for the snapshot witness. -/
def jobW2b : Job :=
  { id := 12, endpoint_id := 4, executor_id := 8, status := "IN_QUEUE"
    input_data := none, output_data := none, delay_time := 0, execution_time := 0 }

/-- Concrete deploying endpoint for the snapshot witness. -/
def epW2 : Endpoint :=
  { id := 4, user_id := 1, name := "ep", status := "Deploying", executor_id := 7
    template_id := 2, env := none, version := 1 }

/-- Concrete store for the snapshot witness. -/
def dbW2 : DB :=
  { jobs := [jobW2, jobW2b], endpoints := [epW2] }

/-- C2.  Long-poll snapshot correctness: the updates response contains
exactly the IN_QUEUE jobs of the executor and exactly its Deploying
endpoints, and when both sets are empty it is the successful response with
two empty lists, not an error. -/
theorem c2_long_poll_snapshot (db : DB) (eid : Nat) :
    (∀ jr : JobResponse, jr ∈ (build_updates_response db eid).jobs ↔
      ∃ j, j ∈ db.jobs ∧ j.executor_id = eid ∧ j.status = "IN_QUEUE" ∧ jr = jobToResponse j) ∧
    (∀ it : EndpointUpdateItem, it ∈ (build_updates_response db eid).endpoints ↔
      ∃ e, e ∈ db.endpoints ∧ e.executor_id = eid ∧ e.status = "Deploying" ∧
        it = endpointToItem e) ∧
    ((∀ j ∈ db.jobs, ¬(j.executor_id = eid ∧ j.status = "IN_QUEUE")) →
      (∀ e ∈ db.endpoints, ¬(e.executor_id = eid ∧ e.status = "Deploying")) →
      build_updates_response db eid = { jobs := [], endpoints := [] }) := by
  refine ⟨?_, ?_, ?_⟩
  · intro jr
    simp only [build_updates_response, get_jobs_in_queue, List.mem_map, List.mem_filter,
      Bool.and_eq_true, beq_iff_eq]
    constructor
    · rintro ⟨j, ⟨hj, he, hs⟩, rfl⟩
      exact ⟨j, hj, he, hs, rfl⟩
    · rintro ⟨j, hj, he, hs, rfl⟩
      exact ⟨j, ⟨hj, he, hs⟩, rfl⟩
  · intro it
    simp only [build_updates_response, get_endpoints_for_executor_by_status, List.mem_map,
      List.mem_filter, Bool.and_eq_true, beq_iff_eq]
    constructor
    · rintro ⟨e, ⟨he, hx, hs⟩, rfl⟩
      exact ⟨e, he, hx, hs, rfl⟩
    · rintro ⟨e, he, hx, hs, rfl⟩
      exact ⟨e, ⟨he, hx, hs⟩, rfl⟩
  · intro hj he
    have h1 : get_jobs_in_queue db eid = [] := by
      refine List.filter_eq_nil_iff.mpr ?_
      intro j hjm
      simp only [Bool.and_eq_true, beq_iff_eq]
      exact fun h => hj j hjm ⟨h.1, h.2⟩
    have h2 : get_endpoints_for_executor_by_status db eid "Deploying" = [] := by
      refine List.filter_eq_nil_iff.mpr ?_
      intro e hem
      simp only [Bool.and_eq_true, beq_iff_eq]
      exact fun h => he e hem ⟨h.1, h.2⟩
    simp [build_updates_response, h1, h2]

/-- Witness for C2 at a concrete store: the queued job of executor 7 shows
up in its snapshot and the other executors job does not. -/
theorem c2_long_poll_snapshot_witness :
    jobToResponse jobW2 ∈ (build_updates_response dbW2 7).jobs ∧
    endpointToItem epW2 ∈ (build_updates_response dbW2 7).endpoints := by
  refine ⟨((c2_long_poll_snapshot dbW2 7).1 (jobToResponse jobW2)).mpr ?_,
    ((c2_long_poll_snapshot dbW2 7).2.1 (endpointToItem epW2)).mpr ?_⟩
  · exact ⟨jobW2, by decide, rfl, rfl, rfl⟩
  · exact ⟨epW2, by decide, rfl, rfl, rfl⟩

/-- C4.  Ownership isolation: when no job row pairs the requested id with
the calling executor (the id is absent, or it belongs to another
executor), the PATCH handler returns the 404 Job not found outcome and
the store is returned untouched; the service result is the same none as
for a nonexistent id. -/
theorem c4_ownership_isolation (db : DB) (eid jid : Nat) (body : ExecutorJobUpdateRequest)
    (hno : ∀ j ∈ db.jobs, j.id = jid → j.executor_id ≠ eid) :
    api_update_job db eid jid body = (ApiResult.httpError 404 "Job not found", db) ∧
    update_job_for_executor db eid jid body = (none, db) := by
  have hfind : db.jobs.find? (fun j => j.id == jid && j.executor_id == eid) = none := by
    refine List.find?_eq_none.mpr ?_
    intro j hj
    simp only [Bool.and_eq_true, beq_iff_eq, not_and]
    exact fun h1 => hno j hj h1
  have hserv : update_job_for_executor db eid jid body = (none, db) := by
    unfold update_job_for_executor
    rw [hfind]
  exact ⟨by unfold api_update_job; rw [hserv], hserv⟩

/-- Concrete job owned by executor 2, targeted by executor 3 in the
ownership witness. -/
def jobW4 : Job :=
  { id := 1, endpoint_id := 1, executor_id := 2, status := "RUNNING"
    input_data := none, output_data := none, delay_time := 0, execution_time := 0 }

/-- Witness for C4: executor 3 patching the job of executor 2 gets the 404
outcome and the store is unchanged. -/
theorem c4_ownership_isolation_witness :
    api_update_job { jobs := [jobW4], endpoints := [] } 3 1 { status := some "COMPLETED" } =
      (ApiResult.httpError 404 "Job not found", { jobs := [jobW4], endpoints := [] }) :=
  (c4_ownership_isolation { jobs := [jobW4], endpoints := [] } 3 1
    { status := some "COMPLETED" } (by decide)).1

/-- C5.  Poll idempotence and absence of side effects: a long-poll call
returns the store it was given, and a repeated call on the state left by a
first call yields the same snapshot. -/
theorem c5_poll_idempotent (hasConn : Bool) (t1 t2 : Rat) (db : DB) (eid : Nat) :
    (get_updates hasConn t1 db eid).2.2 = db ∧
    (get_updates hasConn t2 ((get_updates hasConn t1 db eid).2.2) eid).2.1 =
      (get_updates hasConn t1 db eid).2.1 := by
  exact ⟨rfl, rfl⟩

/-- C6.  Timeout clamp: whenever the handler hands a duration to the wait
primitive, that duration is min(max(0, t), 60), hence within [0, 60]. -/
theorem c6_timeout_clamp (hasConn : Bool) (t : Rat) (db : DB) (eid : Nat) (w : Rat)
    (h : (get_updates hasConn t db eid).1 = some w) :
    w = min (max 0 t) 60 ∧ 0 ≤ w ∧ w ≤ 60 := by
  unfold get_updates at h
  dsimp only at h
  by_cases hc : hasConn = true ∧ 0 < clampTimeout t
  · rw [if_pos hc] at h
    have hw : clampTimeout t = w := Option.some.inj h
    subst hw
    refine ⟨rfl, ?_, ?_⟩
    · exact le_min (le_max_left 0 t) (by norm_num)
    · exact min_le_right _ _
  · rw [if_neg hc] at h
    exact absurd h (by simp)

/-- Witness for C6: with a connection and requested timeout 120 the wait
duration is exactly 60 seconds. -/
theorem c6_timeout_clamp_witness :
    (60 : Rat) = min (max 0 120) 60 ∧ (0 : Rat) ≤ 60 ∧ (60 : Rat) ≤ 60 :=
  c6_timeout_clamp true 120 { jobs := [], endpoints := [] } 1 60 (by decide)

/-- C7.  Transport degradation: with no rabbitmq connection on the
application state the handler performs no wait at all and returns the
fresh snapshot with the store untouched; no error outcome exists on this
path. -/
theorem c7_transport_degradation (t : Rat) (db : DB) (eid : Nat) :
    get_updates false t db eid = (none, build_updates_response db eid, db) := by
  unfold get_updates
  dsimp only
  rw [if_neg (by simp)]

/-- Concrete COMPLETED job of executor 1 for the terminal-finality
counterexample. -/
def jobX3 : Job :=
  { id := 1, endpoint_id := 1, executor_id := 1, status := "COMPLETED"
    input_data := some "in", output_data := some "done", delay_time := 0, execution_time := 0 }

/-- Concrete store for the terminal-finality counterexample. -/
def dbX3 : DB :=
  { jobs := [jobX3], endpoints := [] }

/-- Counterexample to C3: a job already COMPLETED is mutated by a
subsequent executor status-update call, which rewrites both its status and
its output. -/
theorem c3_terminal_finality_counterexample :
    jobX3.status = "COMPLETED" ∧ jobX3 ∈ dbX3.jobs ∧
    ((update_job_for_executor dbX3 1 1
        { status := some "RUNNING", output_data := some "overwritten" }).2.jobs.map Job.status
      = ["RUNNING"]) ∧
    ((update_job_for_executor dbX3 1 1
        { status := some "RUNNING", output_data := some "overwritten" }).2.jobs.map
        Job.output_data = [some "overwritten"]) := by
  decide

/-- C3 amended.  No terminal finality is enforced: an executor job update
that reaches an owned job applies the requested status (and any other
provided field) even when the current status is COMPLETED, FAILED or
CANCELLED. -/
theorem c3_terminal_finality_amended (db : DB) (eid jid : Nat)
    (body : ExecutorJobUpdateRequest) (j : Job)
    (hfind : db.jobs.find? (fun k => k.id == jid && k.executor_id == eid) = some j)
    (_hterm : j.status = "COMPLETED" ∨ j.status = "FAILED" ∨ j.status = "CANCELLED")
    (s : String) (hs : body.status = some s) :
    (update_job_for_executor db eid jid body).1 = some (applyExecutorJobUpdate j body) ∧
    (applyExecutorJobUpdate j body).status = s := by
  constructor
  · unfold update_job_for_executor
    rw [hfind]
  · obtain ⟨bd, be, bo, bs⟩ := body
    simp only [ExecutorJobUpdateRequest.status] at hs
    subst hs
    cases bd <;> cases be <;> cases bo <;> rfl

/-- Concrete FAILED job for the C3 amended witness. -/
def jobX3w : Job :=
  { id := 5, endpoint_id := 2, executor_id := 3, status := "FAILED"
    input_data := none, output_data := none, delay_time := 0, execution_time := 0 }

/-- Witness for the amended C3: an update on a FAILED job goes through and
sets status RUNNING. -/
theorem c3_terminal_finality_amended_witness :
    (update_job_for_executor { jobs := [jobX3w], endpoints := [] } 3 5
        { status := some "RUNNING" }).1 =
      some (applyExecutorJobUpdate jobX3w { status := some "RUNNING" }) ∧
    (applyExecutorJobUpdate jobX3w { status := some "RUNNING" }).status = "RUNNING" :=
  c3_terminal_finality_amended { jobs := [jobX3w], endpoints := [] } 3 5
    { status := some "RUNNING" } jobX3w (by decide) (Or.inr (Or.inl rfl)) "RUNNING" rfl

/-- Concrete queued job of executor 1 for the status-restriction
counterexample. -/
def jobX8 : Job :=
  { id := 2, endpoint_id := 1, executor_id := 1, status := "IN_QUEUE"
    input_data := some "in", output_data := none, delay_time := 0, execution_time := 0 }

/-- Concrete store for the status-restriction counterexample. -/
def dbX8 : DB :=
  { jobs := [jobX8], endpoints := [] }

/-- Counterexample to C8: an executor job update carrying the status value
CANCELLED — outside the RUNNING/COMPLETED/FAILED set — is neither rejected
nor ignored: the handler answers ok and the value is stored as the job
status. -/
theorem c8_status_restriction_counterexample :
    (api_update_job dbX8 1 2 { status := some "CANCELLED" }).1 =
      ApiResult.ok { detail := "ok", id := 2 } ∧
    ((api_update_job dbX8 1 2 { status := some "CANCELLED" }).2.jobs.map Job.status
      = ["CANCELLED"]) ∧
    ¬("CANCELLED" = "RUNNING" ∨ "CANCELLED" = "COMPLETED" ∨ "CANCELLED" = "FAILED") := by
  decide

/-- C8 amended.  The executor update schema leaves status an unconstrained
optional string and the service stores any provided value verbatim: for
every string s, an update reaching an owned job ends with that job having
status s. -/
theorem c8_status_restriction_amended (db : DB) (eid jid : Nat) (s : String) (j : Job)
    (hfind : db.jobs.find? (fun k => k.id == jid && k.executor_id == eid) = some j) :
    (update_job_for_executor db eid jid { status := some s }).1 =
      some { j with status := s } := by
  unfold update_job_for_executor
  rw [hfind]
  rfl

/-- Concrete RUNNING job for the C8 amended witness. -/
def jobX8w : Job :=
  { id := 9, endpoint_id := 4, executor_id := 4, status := "RUNNING"
    input_data := none, output_data := none, delay_time := 0, execution_time := 0 }

/-- Witness for the amended C8: an arbitrary unknown status string is
stored verbatim. -/
theorem c8_status_restriction_amended_witness :
    (update_job_for_executor { jobs := [jobX8w], endpoints := [] } 4 9
        { status := some "TOTALLY_BOGUS" }).1 =
      some { jobX8w with status := "TOTALLY_BOGUS" } :=
  c8_status_restriction_amended { jobs := [jobX8w], endpoints := [] } 4 9
    "TOTALLY_BOGUS" jobX8w (by decide)

/-- Concrete completed legacy job for the cancel counterexample. -/
def ljX9 : LegacyJob :=
  { id := 1, user_id := 1, status := "completed", started_at := some 0
    completed_at := some 3, duration_seconds := some 3 }

/-- Counterexample to C9: cancelling (DELETE /jobs/1) a job whose status is
terminal returns success, but far from leaving the job unchanged it
removes the row — afterwards the store is empty. -/
theorem c9_cancel_counterexample :
    ljX9.status = "completed" ∧
    (delete_job [ljX9] 10 1 (some 1)).1 = true ∧
    (delete_job [ljX9] 10 1 (some 1)).2 = [] := by
  decide

/-- C9 amended.  The client-facing cancel (DELETE /jobs/(job_id), backed by
JobService.delete_job) returns success for any job it can resolve,
whatever its status — terminal included — but instead of leaving the job
unchanged it deletes the row: no job with that id remains afterwards.  It
first runs the conditional cancel block, which touches the status only
when it is pending or running.  A job it cannot resolve yields failure
with the store unchanged. -/
theorem c9_cancel_amended (jobs : List LegacyJob) (now : Int) (jid : Nat)
    (uid : Option Nat) :
    (∀ j, legacy_get_job jobs jid uid = some j →
      (delete_job jobs now jid uid).1 = true ∧
      ∀ k ∈ (delete_job jobs now jid uid).2, k.id ≠ j.id) ∧
    (legacy_get_job jobs jid uid = none → delete_job jobs now jid uid = (false, jobs)) := by
  constructor
  · intro j hfind
    unfold delete_job
    rw [hfind]
    refine ⟨rfl, ?_⟩
    intro k hk
    have := (List.mem_filter.mp hk).2
    simpa using this
  · intro hnone
    unfold delete_job
    rw [hnone]

/-- Concrete running legacy job for the C9 amended witness. -/
def ljX9w : LegacyJob :=
  { id := 4, user_id := 2, status := "running", started_at := some 1
    completed_at := none, duration_seconds := none }

/-- Witness for the amended C9: cancelling a resolvable job answers
success and leaves no row with its id. -/
theorem c9_cancel_amended_witness :
    (delete_job [ljX9w] 7 4 (some 2)).1 = true ∧
    ∀ k ∈ (delete_job [ljX9w] 7 4 (some 2)).2, k.id ≠ ljX9w.id :=
  (c9_cancel_amended [ljX9w] 7 4 (some 2)).1 ljX9w (by decide)

/-- Primary key and executor assignment of every job row, in row order.
Operations that preserve this list change no job executor_id. -/
def jobExecPairs (db : DB) : List (Nat × Nat) :=
  db.jobs.map (fun k => (k.id, k.executor_id))

/-- The executor update block never touches the id or the executor_id of
the row it rewrites. -/
theorem applyExecutorJobUpdate_keeps_keys (j : Job) (body : ExecutorJobUpdateRequest) :
    (applyExecutorJobUpdate j body).id = j.id ∧
    (applyExecutorJobUpdate j body).executor_id = j.executor_id := by
  obtain ⟨bd, be, bo, bs⟩ := body
  cases bs <;> cases bd <;> cases be <;> cases bo <;> exact ⟨rfl, rfl⟩

/-- Replacing one row with a key-preserving rewrite preserves the key
list. -/
theorem replaceFirst_pairs (p : Job → Bool) (f : Job → Job)
    (hf : ∀ k, (f k).id = k.id ∧ (f k).executor_id = k.executor_id) :
    ∀ l : List Job, (replaceFirst p f l).map (fun k => (k.id, k.executor_id)) =
      l.map (fun k => (k.id, k.executor_id))
  | [] => rfl
  | j :: js => by
    unfold replaceFirst
    by_cases hp : p j
    · rw [if_pos hp]
      simp only [List.map_cons, (hf j).1, (hf j).2]
    · rw [if_neg hp]
      simp only [List.map_cons, replaceFirst_pairs p f hf js]

/-- Marking rows RUNNING preserves the key list. -/
theorem markRunningById_pairs (ids : List Nat) (l : List Job) :
    (markRunningById ids l).map (fun k => (k.id, k.executor_id)) =
      l.map (fun k => (k.id, k.executor_id)) := by
  unfold markRunningById
  rw [List.map_map]
  refine List.map_congr_left ?_
  intro k _
  by_cases h : k.id ∈ ids <;> simp [h]

/-- An executor job update changes no job id and no job executor_id. -/
theorem update_job_for_executor_pairs (db : DB) (eid jid : Nat)
    (body : ExecutorJobUpdateRequest) :
    jobExecPairs (update_job_for_executor db eid jid body).2 = jobExecPairs db := by
  unfold update_job_for_executor jobExecPairs
  cases hfind : db.jobs.find? (fun j => j.id == jid && j.executor_id == eid) with
  | none => rfl
  | some j =>
      exact replaceFirst_pairs _ _ (fun k => applyExecutorJobUpdate_keeps_keys k body) db.jobs

/-- The batch job-take changes no job id and no job executor_id. -/
theorem job_take_batch_pairs (db : DB) (pid eid : Nat) (b : Int) :
    jobExecPairs (job_take_batch db pid eid b).2 = jobExecPairs db := by
  unfold job_take_batch
  split
  · rfl
  · dsimp only
    split
    · rfl
    · simp only [jobExecPairs]
      exact markRunningById_pairs _ _

/-- The single job-take changes no job id and no job executor_id. -/
theorem job_take_single_pairs (db : DB) (pid eid : Nat) (bs : Option Int) :
    jobExecPairs (job_take_single db pid eid bs).2 = jobExecPairs db := by
  unfold job_take_single
  split
  · exact job_take_batch_pairs db pid eid _
  · split
    · rfl
    · split
      · rfl
      · simp only [jobExecPairs]
        exact markRunningById_pairs _ _

/-- C1.  Addressing invariant: a job created against an endpoint carries
the endpoint executor_id of that moment, and every mutating operation of
the executor-facing code — executor job update, single and batch job-take
— preserves the (id, executor_id) assignment of every job row, while
reassigning an endpoint touches no job row at all.  Hence a job keeps its
creation-time executor_id even after its endpoint is reassigned. -/
theorem c1_addressing_invariant :
    (∀ (db : DB) (ep uid : Nat) (inp : String) (nid : Nat) (j : Job) (db2 : DB),
      submitJob db ep uid inp nid = (some j, db2) →
      ∃ e, db.endpoints.find? (fun k => k.id == ep && k.user_id == uid) = some e ∧
        j.executor_id = e.executor_id ∧ j.status = "IN_QUEUE" ∧
        db2.jobs = db.jobs ++ [j]) ∧
    (∀ (db : DB) (eid jid : Nat) (body : ExecutorJobUpdateRequest),
      jobExecPairs (update_job_for_executor db eid jid body).2 = jobExecPairs db) ∧
    (∀ (db : DB) (pid eid : Nat) (bs : Option Int),
      jobExecPairs (job_take_single db pid eid bs).2 = jobExecPairs db) ∧
    (∀ (db : DB) (pid eid : Nat) (b : Int),
      jobExecPairs (job_take_batch db pid eid b).2 = jobExecPairs db) ∧
    (∀ (db : DB) (ep ne : Nat), (reassignEndpointExecutor db ep ne).jobs = db.jobs) := by
  refine ⟨?_, update_job_for_executor_pairs, job_take_single_pairs, job_take_batch_pairs,
    fun _ _ _ => rfl⟩
  intro db ep uid inp nid j db2 h
  unfold submitJob at h
  cases hfind : db.endpoints.find? (fun k => k.id == ep && k.user_id == uid) with
  | none =>
      rw [hfind] at h
      exact Option.noConfusion (congrArg Prod.fst h)
  | some e =>
      rw [hfind] at h
      dsimp only at h
      injection h with h1 h2
      injection h1 with h1
      subst h1
      subst h2
      exact ⟨e, rfl, rfl, rfl, rfl⟩

/-- Concrete endpoint owned by user 2 and assigned to executor 9, for the
addressing witness. -/
def epW1 : Endpoint :=
  { id := 1, user_id := 2, name := "e", status := "Ready", executor_id := 9
    template_id := 3, env := none, version := 0 }

/-- Concrete job the addressing witness expects submitJob to create. -/
def jobW1 : Job :=
  { id := 42, endpoint_id := 1, executor_id := 9, status := "IN_QUEUE"
    input_data := some "p", output_data := none, delay_time := 0, execution_time := 0 }

/-- Witness for C1: submitting against the endpoint of executor 9 creates
a job whose executor_id is 9. -/
theorem c1_addressing_invariant_witness :
    ∃ e, (DB.mk [] [epW1]).endpoints.find? (fun k => k.id == 1 && k.user_id == 2) = some e ∧
      jobW1.executor_id = e.executor_id ∧ jobW1.status = "IN_QUEUE" ∧
      (DB.mk [jobW1] [epW1]).jobs = (DB.mk [] [epW1]).jobs ++ [jobW1] :=
  c1_addressing_invariant.1 (DB.mk [] [epW1]) 1 2 "p" 42 jobW1 (DB.mk [jobW1] [epW1]) rfl

/-- Membership in the ordered job-take query is membership in the store
together with the endpoint/executor/IN_QUEUE filter. -/
theorem mem_queuedJobsForPod (db : DB) (epid eid : Nat) (j : Job) :
    j ∈ queuedJobsForPod db epid eid ↔ j ∈ db.jobs ∧ isQueuedFor epid eid j = true := by
  unfold queuedJobsForPod
  rw [List.mem_insertionSort]
  exact List.mem_filter

/-- The job-take query is sorted by ascending id. -/
theorem queuedJobsForPod_sorted (db : DB) (epid eid : Nat) :
    List.Sorted byJobId (queuedJobsForPod db epid eid) :=
  List.sorted_insertionSort byJobId _

/-- The head of a list sorted by id has the least id of the list. -/
theorem head_min_of_sorted {j : Job} {rest : List Job}
    (h : List.Sorted byJobId (j :: rest)) : ∀ k ∈ j :: rest, j.id ≤ k.id := by
  intro k hk
  rcases List.mem_cons.mp hk with rfl | hk
  · exact Nat.le_refl _
  · exact List.rel_of_sorted_cons h k hk

/-- In a list sorted by id, every taken element precedes every dropped
one. -/
theorem take_le_drop_of_sorted {l : List Job} (h : List.Sorted byJobId l) (n : Nat) :
    ∀ x ∈ l.take n, ∀ y ∈ l.drop n, x.id ≤ y.id := by
  have h2 : List.Pairwise byJobId (l.take n ++ l.drop n) := by
    rw [List.take_append_drop]
    exact h
  exact fun x hx y hy => (List.pairwise_append.mp h2).2.2 x hx y hy

/-- A row whose id was selected is RUNNING after the marking pass. -/
theorem markRunningById_status (ids : List Nat) (l : List Job) (k : Job)
    (hk : k ∈ markRunningById ids l) (hid : k.id ∈ ids) : k.status = "RUNNING" := by
  unfold markRunningById at hk
  obtain ⟨k0, _, rfl⟩ := List.mem_map.mp hk
  by_cases h : ids.contains k0.id
  · simp only [if_pos h]
  · rw [if_neg h] at hid ⊢
    exact absurd (List.elem_iff.mpr hid) h

/-- C10.  RunPod job-take is a mutating poll: for a pod resolving to an
endpoint of the authenticated executor, the single take answers 204 and
changes nothing when no IN_QUEUE job exists for that endpoint and
executor, and otherwise returns the queued job with the least id after
marking it RUNNING in the store; the batch take marks at most
max(1, batch_size) queued jobs RUNNING, all of them drawn from the oldest
(least-id) end of the queue; an unresolvable pod yields the 404 outcome. -/
theorem c10_runpod_job_take (db : DB) (pid eid : Nat) :
    (∀ ep, get_endpoint_for_pod db pid eid = some ep →
      ((queuedJobsForPod db ep.id eid = [] →
          job_take_single db pid eid none = (TakeResponse.noContent, db)) ∧
       (∀ j rest, queuedJobsForPod db ep.id eid = j :: rest →
          job_take_single db pid eid none =
            (TakeResponse.takenOne (serialize_job_for_runpod j),
             { db with jobs := markRunningById [j.id] db.jobs }) ∧
          j ∈ db.jobs ∧ isQueuedFor ep.id eid j = true ∧
          (∀ k ∈ db.jobs, isQueuedFor ep.id eid k = true → j.id ≤ k.id) ∧
          (∀ k ∈ markRunningById [j.id] db.jobs, k.id = j.id → k.status = "RUNNING")))) ∧
    (∀ ep (b : Int), get_endpoint_for_pod db pid eid = some ep →
      ((queuedJobsForPod db ep.id eid).take (max 1 b).toNat = [] →
        job_take_batch db pid eid b = (TakeResponse.noContent, db)) ∧
      (∀ taken, (queuedJobsForPod db ep.id eid).take (max 1 b).toNat = taken → taken ≠ [] →
        job_take_batch db pid eid b =
          (TakeResponse.takenMany (taken.map serialize_job_for_runpod),
           { db with jobs := markRunningById (taken.map Job.id) db.jobs }) ∧
        taken.length ≤ (max 1 b).toNat ∧
        (∀ t ∈ taken, t ∈ db.jobs ∧ isQueuedFor ep.id eid t = true) ∧
        (∀ t ∈ taken, ∀ k ∈ (queuedJobsForPod db ep.id eid).drop (max 1 b).toNat,
          t.id ≤ k.id) ∧
        (∀ k ∈ markRunningById (taken.map Job.id) db.jobs,
          k.id ∈ taken.map Job.id → k.status = "RUNNING"))) ∧
    (get_endpoint_for_pod db pid eid = none →
      job_take_single db pid eid none =
        (TakeResponse.httpError 404 "Endpoint not found for this pod or executor", db)) := by
  refine ⟨?_, ?_, ?_⟩
  · intro ep hep
    constructor
    · intro hq
      unfold job_take_single
      rw [if_neg (by decide), hep]
      dsimp only
      rw [hq]
      rfl
    · intro j rest hq
      have hsorted := queuedJobsForPod_sorted db ep.id eid
      rw [hq] at hsorted
      have hmem : j ∈ queuedJobsForPod db ep.id eid := by
        rw [hq]
        exact List.mem_cons_self _ _
      have hmemf := (mem_queuedJobsForPod db ep.id eid j).mp hmem
      refine ⟨?_, hmemf.1, hmemf.2, ?_, ?_⟩
      · unfold job_take_single
        rw [if_neg (by decide), hep]
        dsimp only
        rw [hq]
        rfl
      · intro k hk hkq
        have hkmem : k ∈ queuedJobsForPod db ep.id eid :=
          (mem_queuedJobsForPod db ep.id eid k).mpr ⟨hk, hkq⟩
        rw [hq] at hkmem
        exact head_min_of_sorted hsorted k hkmem
      · intro k hk hkid
        exact markRunningById_status [j.id] db.jobs k hk (by simp [hkid])
  · intro ep b hep
    constructor
    · intro hq
      unfold job_take_batch
      rw [hep]
      dsimp only
      rw [hq]
    · intro taken htake hne
      cases taken with
      | nil => exact absurd rfl hne
      | cons j t =>
          refine ⟨?_, ?_, ?_, ?_, ?_⟩
          · unfold job_take_batch
            rw [hep]
            dsimp only
            rw [htake]
          · rw [← htake]
            exact List.length_take_le _ _
          · intro x hx
            have hxq : x ∈ queuedJobsForPod db ep.id eid := by
              refine List.take_subset (max 1 b).toNat _ ?_
              rw [htake]
              exact hx
            exact (mem_queuedJobsForPod db ep.id eid x).mp hxq
          · intro x hx k hk
            refine take_le_drop_of_sorted (queuedJobsForPod_sorted db ep.id eid) _ x ?_ k hk
            rw [htake]
            exact hx
          · intro k hk hkid
            exact markRunningById_status _ db.jobs k hk hkid
  · intro hnone
    unfold job_take_single
    rw [if_neg (by decide), hnone]

/-- Concrete endpoint of executor 1 for the job-take witness. -/
def epW10 : Endpoint :=
  { id := 1, user_id := 1, name := "e", status := "Ready", executor_id := 1
    template_id := 1, env := none, version := 0 }

/-- Concrete queued job with the larger id for the job-take witness. -/
def jobW10a : Job :=
  { id := 3, endpoint_id := 1, executor_id := 1, status := "IN_QUEUE"
    input_data := some "a", output_data := none, delay_time := 0, execution_time := 0 }

/-- Concrete queued job with the least id for the job-take witness. -/
def jobW10b : Job :=
  { id := 2, endpoint_id := 1, executor_id := 1, status := "IN_QUEUE"
    input_data := some "b", output_data := none, delay_time := 0, execution_time := 0 }

/-- Concrete store for the job-take witness: the store lists the jobs out
of id order. -/
def dbW10 : DB :=
  { jobs := [jobW10a, jobW10b], endpoints := [epW10] }

/-- Witness for C10: the single take on the concrete store picks the job
with the least id and marks it RUNNING. -/
theorem c10_runpod_job_take_witness :
    job_take_single dbW10 1 1 none =
      (TakeResponse.takenOne (serialize_job_for_runpod jobW10b),
       { dbW10 with jobs := markRunningById [jobW10b.id] dbW10.jobs }) ∧
    jobW10b ∈ dbW10.jobs ∧ isQueuedFor epW10.id 1 jobW10b = true :=
  have h := ((c10_runpod_job_take dbW10 1 1).1 epW10 rfl).2 jobW10b [jobW10a] (by decide)
  ⟨h.1, h.2.1, h.2.2.1⟩
